import Mathlib

/-!
Verification of the supervision-frontend dashboard client.

Shallow embedding of the TypeScript sources:
  * `src/lib/api.ts`            — HTTP client wrapper (timeouts, envelope
    unwrapping, multipart payload construction, error-message mapping);
  * `src/components/dashboard/CsvUploadCard.tsx` — upload handler
    (`handleFileSelect`), modelled as a pure function from its inputs to the
    ordered list of effects it performs;
  * `src/components/dashboard/DashboardStats.tsx` — summary statistics;
  * `src/components/dashboard/EntranceRateByGroup.tsx` — group-and-average
    chart transform;
  * `PerformanceLeaderboard` — comparator-based sorting of the table.

Numbers that the TypeScript code holds in IEEE doubles are modelled as `ℚ`
(all arithmetic the claims touch is sums, divisions and comparisons of small
rationals); the one place where the float-specific value NaN is observable
(average over an empty collection) is modelled by the explicit `JsNum` type
whose division mirrors JavaScript division of a rational by a natural count.
JavaScript `Array.prototype.sort` with a consistent comparator is a stable
sort by that comparator; it is modelled by `List.insertionSort` (stable) on
the non-strict relation `comparator a b ≤ 0`.
-/

namespace SupervisionFrontend

/-- Upload mode selected in the card (`type UploadMode = "replace" | "append"`,
`CsvUploadCard.tsx` line 32). -/
inductive UploadMode
  | replace
  | append
deriving DecidableEq, Repr

/-- The two upload card kinds (`type UploadType`, `CsvUploadCard.tsx` line 31). -/
inductive UploadType
  | contentPerformance
  | playerHistory
deriving DecidableEq, Repr

/-- `currentConfig.dataset` for each card type (`CsvUploadCard.tsx` lines 62-77). -/
def UploadType.dataset : UploadType → String
  | .contentPerformance => "content-performance"
  | .playerHistory => "player-history"

/-- A selected browser `File`: the handler and the api layer only ever read
its `name` and `size`. -/
structure FileDesc where
  name : String
  size : ℕ
deriving DecidableEq, Repr

/-- JavaScript `String.prototype.endsWith`: suffix match on the character
sequence (structurally computable model of `name.endsWith('.csv')`). -/
def strEndsWith (s suffix : String) : Bool :=
  suffix.data.isSuffixOf s.data

/-- JavaScript `String.prototype.startsWith`: used only in the statements
about error messages. -/
def strStartsWith (s p : String) : Bool :=
  p.data.isPrefixOf s.data

/-! ### api.ts: timeouts -/

/-- Base axios client timeout, `api.ts` line 13: `timeout: 30000`. -/
def apiClient_timeout : ℕ := 30000

/-- Per-request timeout of `uploadContentPerformanceCSV`, `api.ts` line 185:
`timeout: file.size > 10 * 1024 * 1024 ? 120000 : 60000`. -/
def uploadContentPerformanceCSV_timeout (size : ℕ) : ℕ :=
  if size > 10 * 1024 * 1024 then 120000 else 60000

/-- Per-request timeout of `uploadPlayerHistoryCSV`, `api.ts` line 238:
`timeout: file.size > 10 * 1024 * 1024 ? 120000 : 60000`. -/
def uploadPlayerHistoryCSV_timeout (size : ℕ) : ℕ :=
  if size > 10 * 1024 * 1024 then 120000 else 60000

/-! ### api.ts: multipart payload construction -/

/-- A value appended to a `FormData`. -/
inductive FormDataValue
  | fileValue (name : String) (size : ℕ)
  | stringValue (s : String)
deriving DecidableEq, Repr

/-- The multipart payload built by `uploadContentPerformanceCSV`, `api.ts`
lines 176-177: `const formData = new FormData(); formData.append('file', file);`
— these are the only `append` calls; the function's signature
(`api.ts` line 168) takes only `file`, so no other field can be added. -/
def uploadContentPerformanceCSV_formData (file : FileDesc) :
    List (String × FormDataValue) :=
  [("file", FormDataValue.fileValue file.name file.size)]

/-- The multipart payload built by `uploadPlayerHistoryCSV`, `api.ts`
lines 229-230, identical construction. -/
def uploadPlayerHistoryCSV_formData (file : FileDesc) :
    List (String × FormDataValue) :=
  [("file", FormDataValue.fileValue file.name file.size)]

/-! ### api.ts: backend envelope and unwrapping -/

/-- `ApiResponse<T>` envelope, `api.ts` lines 48-54 (`error_raw` carries no
behaviour and is omitted). `data: T | null` becomes `Option T`. -/
structure ApiResponse (T : Type) where
  success : Bool
  status_code : ℤ
  message : String
  data : Option T
deriving DecidableEq, Repr

/-- `ContentPerformanceKPI`, `api.ts` lines 59-67 (backend shape: the grade is
still a plain string here). -/
structure ContentPerformanceKPI where
  content_id : String
  title : String
  content_group : String
  total_impressions : ℤ
  attention_rate : ℚ
  entrance_rate : ℚ
  performance_grade : String
deriving DecidableEq, Repr

/-- `GroupPerformanceKPI`, `api.ts` lines 72-78. -/
structure GroupPerformanceKPI where
  content_group : String
  total_impressions : ℤ
  attention_rate : ℚ
  entrance_rate : ℚ
  content_count : ℤ
deriving DecidableEq, Repr

/-- JavaScript `s || fallback` on strings: the empty string is falsy. -/
def jsStringOr (s fallback : String) : String :=
  if s = "" then fallback else s

/-- JavaScript `o || fallback` where `o` may be `undefined`/`null` (here
`Option String`): absent and empty both fall back. -/
def jsOptStringOr (o : Option String) (fallback : String) : String :=
  match o with
  | some s => jsStringOr s fallback
  | none => fallback

/-- Envelope unwrapping in `fetchContentPerformance`, `api.ts` lines 108-114:
`if (!result.success || !result.data) throw new Error(result.message ||
'Failed to fetch performance data'); return result.data;`.  An array value is
truthy in JavaScript even when empty, so `!result.data` holds exactly when
`data` is `null`/absent. -/
def fetchContentPerformance_unwrap (r : ApiResponse (List ContentPerformanceKPI)) :
    Except String (List ContentPerformanceKPI) :=
  if r.success then
    match r.data with
    | some d => Except.ok d
    | none => Except.error (jsStringOr r.message "Failed to fetch performance data")
  else
    Except.error (jsStringOr r.message "Failed to fetch performance data")

/-- Envelope unwrapping in `fetchGroupPerformance`, `api.ts` lines 140-146,
same shape with its own fallback message. -/
def fetchGroupPerformance_unwrap (r : ApiResponse (List GroupPerformanceKPI)) :
    Except String (List GroupPerformanceKPI) :=
  if r.success then
    match r.data with
    | some d => Except.ok d
    | none => Except.error (jsStringOr r.message "Failed to fetch group performance data")
  else
    Except.error (jsStringOr r.message "Failed to fetch group performance data")

/-! ### api.ts: transport-error message mapping -/

/-- The parts of an `AxiosError` the catch blocks read: `error.code`,
`error.message`, `error.response?.statusText`, `error.response?.data?.message`. -/
structure AxiosErrorModel where
  code : Option String
  message : String
  responseStatusText : Option String
  responseDataMessage : Option String
deriving DecidableEq, Repr

/-- Message produced by the catch block of `uploadContentPerformanceCSV`,
`api.ts` lines 196-213: on `error.code === 'ECONNABORTED'` the dedicated
timeout message, otherwise the generic message built from
`error.response?.statusText || 'Unknown error'` and
`error.response?.data?.message || error.message`. -/
def uploadContentPerformanceCSV_errorMessage (e : AxiosErrorModel) : String :=
  if e.code = some "ECONNABORTED" then
    "Upload timeout: File is too large or connection is too slow. Please try a smaller file or check your connection."
  else
    "Failed to upload content performance CSV: "
      ++ jsOptStringOr e.responseStatusText "Unknown error"
      ++ ". " ++ jsOptStringOr e.responseDataMessage e.message

/-- Message produced by the catch block of `uploadPlayerHistoryCSV`,
`api.ts` lines 249-266, identical except for the generic prefix. -/
def uploadPlayerHistoryCSV_errorMessage (e : AxiosErrorModel) : String :=
  if e.code = some "ECONNABORTED" then
    "Upload timeout: File is too large or connection is too slow. Please try a smaller file or check your connection."
  else
    "Failed to upload player history CSV: "
      ++ jsOptStringOr e.responseStatusText "Unknown error"
      ++ ". " ++ jsOptStringOr e.responseDataMessage e.message

/-- Message produced by the catch block of `fetchContentPerformance`,
`api.ts` lines 115-121: always the generic prefix, with the transport message
passed through (`error.response?.data?.message || error.message`); there is no
timeout-specific branch on the fetch path. -/
def fetchContentPerformance_axiosErrorMessage (e : AxiosErrorModel) : String :=
  "Failed to fetch performance data: " ++ jsOptStringOr e.responseDataMessage e.message

/-! ### api.ts: declared upload response shape, and what the card reads -/

/-- `CsvUploadResponse`, `api.ts` lines 159-163. -/
structure CsvUploadResponse where
  totalRecords : ℤ
  recordsProcessed : ℤ
  errors : Option (List String)
deriving DecidableEq, Repr

/-- The field names declared by `interface CsvUploadResponse`, `api.ts`
lines 159-163, in declaration order. -/
def csvUploadResponse_declaredFields : List String :=
  ["totalRecords", "recordsProcessed", "errors"]

/-- The field names the success path of `handleFileSelect` reads from the
upload result, `CsvUploadCard.tsx` lines 124-149: `result.errors`,
`result.recordsProcessed`, `result.databaseRecords`, `result.lastUpdatedAt`. -/
def handleFileSelect_resultReads : List String :=
  ["errors", "recordsProcessed", "databaseRecords", "lastUpdatedAt"]

/-! ### types/performance.ts: presentation data model -/

/-- `performance_grade: 'S' | 'A' | 'B' | 'C' | 'D'` (`types/performance.ts`). -/
inductive Grade
  | S
  | A
  | B
  | C
  | D
deriving DecidableEq, Repr

/-- `AdPerformanceData`, `types/performance.ts` lines 1-9. -/
structure AdPerformanceData where
  content_id : String
  title : String
  content_group : String
  total_impressions : ℤ
  attention_rate : ℚ
  entrance_rate : ℚ
  performance_grade : Grade
deriving DecidableEq, Repr

/-! ### A minimal model of JavaScript number division

Only what the claims observe: dividing a (rational-valued) sum by a natural
count.  In IEEE-754, `0/0 = NaN` and `±x/0 = ±Infinity` for `x ≠ 0`; for a
non-zero count the quotient is the exact rational (float rounding is outside
the scope of this model). -/

/-- A JavaScript number as observed by the claims: NaN, signed infinity, or a
rational value. -/
inductive JsNum
  | nan
  | posInf
  | negInf
  | num (q : ℚ)
deriving DecidableEq, Repr

/-- JavaScript division of a rational by a natural count. -/
def jsDivByCount (a : ℚ) (n : ℕ) : JsNum :=
  if n = 0 then
    if a > 0 then JsNum.posInf else if a < 0 then JsNum.negInf else JsNum.nan
  else
    JsNum.num (a / n)

/-- Multiplication of a JavaScript number by the positive constant 100
(`avgAttention * 100`): NaN and infinities are absorbing. -/
def jsMul100 : JsNum → JsNum
  | JsNum.nan => JsNum.nan
  | JsNum.posInf => JsNum.posInf
  | JsNum.negInf => JsNum.negInf
  | JsNum.num q => JsNum.num (q * 100)

/-! ### DashboardStats.tsx: summary statistics -/

/-- The record returned by the `stats` memo. -/
structure DashboardStatsResult where
  totalImpressions : ℤ
  avgAttention : JsNum
  avgEntrance : JsNum
  topPerformers : ℕ
deriving DecidableEq, Repr

/-- `DashboardStats.stats`, `DashboardStats.tsx` lines 11-23:
`totalImpressions` is `data.reduce((sum, item) => sum + item.total_impressions, 0)`,
the averages divide the analogous rate sums by `data.length` (unguarded) and
are scaled `* 100` in the returned object, and `topPerformers` counts records
of grade S or A. -/
def DashboardStats_stats (data : List AdPerformanceData) : DashboardStatsResult :=
  let totalImpressions := data.foldl (fun sum item => sum + item.total_impressions) 0
  let avgAttention := jsDivByCount (data.foldl (fun sum item => sum + item.attention_rate) 0) data.length
  let avgEntrance := jsDivByCount (data.foldl (fun sum item => sum + item.entrance_rate) 0) data.length
  let topPerformers := (data.filter fun item =>
    item.performance_grade = Grade.S ∨ item.performance_grade = Grade.A).length
  { totalImpressions := totalImpressions
    avgAttention := jsMul100 avgAttention
    avgEntrance := jsMul100 avgEntrance
    topPerformers := topPerformers }

/-! ### EntranceRateByGroup.tsx: group-and-average chart transform

The `groupMap` is a JavaScript `Map`, iterated in key-insertion order;
`Map.set` on an existing key updates the value in place, on a new key appends
at the end.  It is modelled as an association list `(group, sum, count)`. -/

/-- One `groupMap.set(item.content_group, { sum: existing.sum +
item.entrance_rate, count: existing.count + 1 })` step,
`EntranceRateByGroup.tsx` lines 15-21. -/
def updateGroupEntry : List (String × ℚ × ℕ) → String → ℚ → List (String × ℚ × ℕ)
  | [], g, r => [(g, r, 1)]
  | (g', s, c) :: t, g, r =>
    if g' = g then (g', s + r, c + 1) :: t else (g', s, c) :: updateGroupEntry t g r

/-- The populated `groupMap` after the `data.forEach` loop,
`EntranceRateByGroup.tsx` lines 13-21. -/
def groupFold (data : List AdPerformanceData) : List (String × ℚ × ℕ) :=
  data.foldl (fun m item => updateGroupEntry m item.content_group item.entrance_rate) []

/-- A chart entry `{ content_group, average_entrance_rate }` (the spec's
`GroupAggregate`). -/
structure GroupAggregate where
  content_group : String
  average_entrance_rate : ℚ
deriving DecidableEq, Repr

/-- The comparator `(a, b) => b.average_entrance_rate - a.average_entrance_rate`
keeps `a` before `b` exactly when it returns `≤ 0`, i.e. when
`b.average_entrance_rate ≤ a.average_entrance_rate`. -/
def chartDataRel (a b : GroupAggregate) : Prop :=
  b.average_entrance_rate ≤ a.average_entrance_rate

instance : DecidableRel chartDataRel := fun a b =>
  inferInstanceAs (Decidable (b.average_entrance_rate ≤ a.average_entrance_rate))

instance : IsTotal GroupAggregate chartDataRel := by
  constructor
  intro a b
  unfold chartDataRel
  exact le_total _ _

instance : IsTrans GroupAggregate chartDataRel := by
  constructor
  intro a b c hab hbc
  exact le_trans hbc hab

/-- `EntranceRateByGroup.chartData`, `EntranceRateByGroup.tsx` lines 12-27:
map the grouped sums/counts to `{ content_group, average_entrance_rate:
(sum / count) * 100 }` and sort descending by the average (stable JavaScript
sort with comparator `b.average_entrance_rate - a.average_entrance_rate`). -/
def chartData (data : List AdPerformanceData) : List GroupAggregate :=
  List.insertionSort chartDataRel
    ((groupFold data).map fun e =>
      { content_group := e.1, average_entrance_rate := e.2.1 / (e.2.2 : ℚ) * 100 })

/-- `groupMap.get(g)`: first-match association lookup (keys are kept unique
by `updateGroupEntry`). -/
def lookupEntry : List (String × ℚ × ℕ) → String → Option (ℚ × ℕ)
  | [], _ => none
  | (g', v) :: t, g => if g' = g then some v else lookupEntry t g

/-- Sum of `entrance_rate` over the records of group `g` (specification value
the invariant proofs compare the fold against). -/
def groupRateSum (data : List AdPerformanceData) (g : String) : ℚ :=
  ((data.filter fun x => x.content_group = g).map fun x => x.entrance_rate).sum

/-- Number of records of group `g`. -/
def groupCount (data : List AdPerformanceData) (g : String) : ℕ :=
  (data.filter fun x => x.content_group = g).length

/-! ### PerformanceLeaderboard (unnamed source, part_000): sorted table -/

/-- `type SortKey`, part_000 line 11. -/
inductive SortKey
  | title
  | content_group
  | total_impressions
  | attention_rate
  | entrance_rate
  | performance_grade
deriving DecidableEq, Repr

/-- `type SortDirection = 'asc' | 'desc'`, part_000 line 12. -/
inductive SortDirection
  | asc
  | desc
deriving DecidableEq, Repr

/-- `const gradeOrder = { S: 5, A: 4, B: 3, C: 2, D: 1 }`, part_000 line 46. -/
def gradeOrder : Grade → ℕ
  | Grade.S => 5
  | Grade.A => 4
  | Grade.B => 3
  | Grade.C => 2
  | Grade.D => 1

/-- The `aVal < bVal` comparison of the comparator for each key: strings
compare lexicographically (JavaScript compares UTF-16 code units; Lean's
`String` order is lexicographic on characters, which agrees on the basic
plane), numbers numerically, and for `performance_grade` the grade ranks
`gradeOrder` are compared instead (part_000 lines 45-49). -/
def fieldLt (key : SortKey) (a b : AdPerformanceData) : Prop :=
  match key with
  | SortKey.title => a.title < b.title
  | SortKey.content_group => a.content_group < b.content_group
  | SortKey.total_impressions => a.total_impressions < b.total_impressions
  | SortKey.attention_rate => a.attention_rate < b.attention_rate
  | SortKey.entrance_rate => a.entrance_rate < b.entrance_rate
  | SortKey.performance_grade => gradeOrder a.performance_grade < gradeOrder b.performance_grade

instance fieldLt.decidableRel (key : SortKey) : DecidableRel (fieldLt key) := by
  intro a b
  cases key <;> simp only [fieldLt] <;> infer_instance

/-- The comparator of `PerformanceLeaderboard.sortedData`, part_000 lines
41-53: `-1`/`1` by `aVal < bVal` and `aVal > bVal`, with the signs flipped for
the descending direction, `0` otherwise. -/
def jsComparator (key : SortKey) (dir : SortDirection) (a b : AdPerformanceData) : ℤ :=
  if fieldLt key a b then (match dir with | SortDirection.asc => -1 | SortDirection.desc => 1)
  else if fieldLt key b a then (match dir with | SortDirection.asc => 1 | SortDirection.desc => -1)
  else 0

/-- The non-strict "keep `a` before `b`" relation induced by the comparator. -/
def sortedDataRel (key : SortKey) (dir : SortDirection) (a b : AdPerformanceData) : Prop :=
  jsComparator key dir a b ≤ 0

instance (key : SortKey) (dir : SortDirection) : DecidableRel (sortedDataRel key dir) :=
  fun a b => inferInstanceAs (Decidable (jsComparator key dir a b ≤ 0))

instance : IsTotal AdPerformanceData (sortedDataRel SortKey.performance_grade SortDirection.desc) := by
  constructor
  intro a b
  unfold sortedDataRel jsComparator fieldLt
  split_ifs <;> simp_all <;> omega

instance : IsTrans AdPerformanceData (sortedDataRel SortKey.performance_grade SortDirection.desc) := by
  constructor
  intro a b c hab hbc
  unfold sortedDataRel jsComparator fieldLt at *
  split_ifs at * <;> simp_all <;> omega

instance : IsTotal AdPerformanceData (sortedDataRel SortKey.performance_grade SortDirection.asc) := by
  constructor
  intro a b
  unfold sortedDataRel jsComparator fieldLt
  split_ifs <;> simp_all <;> omega

instance : IsTrans AdPerformanceData (sortedDataRel SortKey.performance_grade SortDirection.asc) := by
  constructor
  intro a b c hab hbc
  unfold sortedDataRel jsComparator fieldLt at *
  split_ifs at * <;> simp_all <;> omega

/-- `PerformanceLeaderboard.sortedData`, part_000 lines 40-55:
`[...data].sort(comparator)` — a stable sort by the comparator, modelled by
insertion sort on the non-strict relation `comparator a b ≤ 0`. -/
def sortedData (key : SortKey) (dir : SortDirection) (data : List AdPerformanceData) :
    List AdPerformanceData :=
  List.insertionSort (sortedDataRel key dir) data

/-! ### CsvUploadCard.tsx: upload handler as an effect trace -/

/-- The upload-result shape the card's success path dereferences
(`CsvUploadCard.tsx` lines 124-139).  Note that `databaseRecords` and
`lastUpdatedAt` exceed the `CsvUploadResponse` interface `api.ts` declares;
see the C9 analysis. -/
structure CardUploadResult where
  totalRecords : ℤ
  recordsProcessed : ℤ
  errors : Option (List String)
  databaseRecords : ℤ
  lastUpdatedAt : Option String
deriving DecidableEq, Repr

/-- One observable action of `handleFileSelect`, in program order. -/
inductive Effect
  | toastNoFile
  | setUploading (b : Bool)
  | clearResult
  | setResult (success : Bool) (message : String) (details : Option String)
  | callUpload (fileName : String) (mode : UploadMode)
  | invalidate (key : List String)
  | resetFileInput
deriving DecidableEq, Repr

/-- `mode` rendered into the user-visible messages (`uploadMode` is the string
`"replace"`/`"append"`). -/
def UploadMode.str : UploadMode → String
  | UploadMode.replace => "replace"
  | UploadMode.append => "append"

/-- `date-fns` `format(new Date(ts), "PPpp")` is presentation-only formatting
of the timestamp; modelled as the raw timestamp string. -/
def formatPPpp (ts : String) : String := ts

/-- `Number.prototype.toLocaleString` inserts locale digit separators;
modelled as plain decimal rendering (presentation-only). -/
def toLocaleString (n : ℤ) : String := toString n

/-- `hasErrors`, `CsvUploadCard.tsx` line 124: `result.errors &&
result.errors.length > 0`. -/
def hasErrors (result : CardUploadResult) : Bool :=
  match result.errors with
  | some es => es.length > 0
  | none => false

/-- The success `message`, `CsvUploadCard.tsx` lines 143-149. -/
def successMessage (mode : UploadMode) (result : CardUploadResult) : String :=
  if hasErrors result then
    "Upload completed (" ++ mode.str ++ " mode): "
      ++ toLocaleString result.recordsProcessed ++ " record(s) processed successfully"
  else
    "Successfully uploaded " ++ toLocaleString result.recordsProcessed
      ++ " record(s) using " ++ mode.str ++ " mode"

/-- The success `details` (`detailParts.join(" ")`), `CsvUploadCard.tsx`
lines 126-139. -/
def successDetails (result : CardUploadResult) : String :=
  String.intercalate " "
    ((if hasErrors result then
        [toString (result.errors.getD []).length
          ++ " row(s) were skipped due to validation errors."]
      else [])
      ++ ["Database now stores " ++ toLocaleString result.databaseRecords ++ " record(s)."]
      ++ (match result.lastUpdatedAt with
          | some ts => ["Last updated at " ++ formatPPpp ts ++ "."]
          | none => []))

/-- `handleFileSelect`, `CsvUploadCard.tsx` lines 92-184, as the ordered list
of effects it performs.  `outcome` is the settled result of
`currentConfig.uploadFn(file, { mode: uploadMode })` (line 120): `Except.ok`
when the promise fulfils, `Except.error` with the thrown error's message when
it rejects; the `callUpload` effect records that the upload function is
invoked, and with which mode argument.  Program order: no file → toast and
return; non-`.csv` name → failed validation result and return (before any
upload call); otherwise `setIsUploading(true)`, `setUploadResult(null)`, the
upload call, then on success the success result, the three
`queryClient.invalidateQueries` calls and the file-input reset, on failure the
failure result; `finally` sets `isUploading` back to `false`. -/
def handleFileSelect (type : UploadType) (file? : Option FileDesc) (mode : UploadMode)
    (outcome : Except String CardUploadResult) : List Effect :=
  match file? with
  | none => [Effect.toastNoFile]
  | some file =>
    if strEndsWith file.name ".csv" = false then
      [Effect.setResult false "Invalid file type" (some "Please select a CSV file.")]
    else
      [Effect.setUploading true, Effect.clearResult, Effect.callUpload file.name mode]
        ++ (match outcome with
            | Except.ok result =>
              [Effect.setResult true (successMessage mode result) (some (successDetails result)),
               Effect.invalidate ["performance"],
               Effect.invalidate ["group-performance"],
               Effect.invalidate ["dataset-status", type.dataset],
               Effect.resetFileInput]
            | Except.error msg =>
              [Effect.setResult false "Upload failed" (some msg)])
        ++ [Effect.setUploading false]

/-! ### Query/cache staleness constants -/

/-- `staleTime: 30000` of the `performance` query, `use-performance-data`
(unnamed source part_002, `usePerformanceData`). -/
def usePerformanceData_staleTime : ℕ := 30000

/-- `staleTime: 30000` of the `group-performance` query (part_002,
`useGroupPerformanceData`). -/
def useGroupPerformanceData_staleTime : ℕ := 30000

/-- `staleTime: 30_000` of the `dataset-status` query, `CsvUploadCard.tsx`
line 89. -/
def datasetStatus_staleTime : ℕ := 30000

/-! ## Helper lemmas -/

theorem foldl_add_eq_sum {α M : Type} [AddCommMonoid M] (f : α → M) :
    ∀ (l : List α) (a : M), l.foldl (fun s x => s + f x) a = a + (l.map f).sum
  | [], a => by simp
  | x :: t, a => by
    simp only [List.foldl_cons, List.map_cons, List.sum_cons]
    rw [foldl_add_eq_sum f t (a + f x), add_assoc]

/-! ## Claim theorems -/

/-- C8: every upload call's request timeout is a function of the file size:
strictly above 10MB (10 * 1024 * 1024 bytes) it is 120 seconds, otherwise
60 seconds (120s being double 60s), while the base client timeout for other
requests is 30 seconds. -/
theorem upload_timeout_thresholds (size : ℕ) :
    (size > 10 * 1024 * 1024 →
      uploadContentPerformanceCSV_timeout size = 120000
      ∧ uploadPlayerHistoryCSV_timeout size = 120000)
    ∧ (size ≤ 10 * 1024 * 1024 →
      uploadContentPerformanceCSV_timeout size = 60000
      ∧ uploadPlayerHistoryCSV_timeout size = 60000)
    ∧ (120000 : ℕ) = 2 * 60000
    ∧ apiClient_timeout = 30000 := by
  refine ⟨fun h => ⟨?_, ?_⟩, fun h => ⟨?_, ?_⟩, rfl, rfl⟩ <;>
    simp [uploadContentPerformanceCSV_timeout, uploadPlayerHistoryCSV_timeout, h]

/-- Witness for C8 at a 10MB+1-byte file and a 1000-byte file. -/
theorem upload_timeout_thresholds_witness :
    uploadContentPerformanceCSV_timeout (10 * 1024 * 1024 + 1) = 120000
    ∧ uploadContentPerformanceCSV_timeout 1000 = 60000 :=
  ⟨((upload_timeout_thresholds (10 * 1024 * 1024 + 1)).1 (by omega)).1,
   ((upload_timeout_thresholds 1000).2.1 (by omega)).1⟩

/-- C7: a transport error with code `ECONNABORTED` (axios's timeout code) is
surfaced by both upload functions with the dedicated message beginning
"Upload timeout:", not with the generic "Failed to upload ..." message; on the
fetch path the (timeout-specific) transport message is passed through into the
surfaced message. -/
theorem timeout_error_message_distinct (e : AxiosErrorModel)
    (h : e.code = some "ECONNABORTED") :
    strStartsWith (uploadContentPerformanceCSV_errorMessage e) "Upload timeout:" = true
    ∧ strStartsWith (uploadContentPerformanceCSV_errorMessage e) "Failed to upload" = false
    ∧ strStartsWith (uploadPlayerHistoryCSV_errorMessage e) "Upload timeout:" = true
    ∧ strStartsWith (uploadPlayerHistoryCSV_errorMessage e) "Failed to upload" = false
    ∧ (e.responseDataMessage = none →
        fetchContentPerformance_axiosErrorMessage e
          = "Failed to fetch performance data: " ++ e.message) := by
  rw [uploadContentPerformanceCSV_errorMessage, uploadPlayerHistoryCSV_errorMessage,
    if_pos h, if_pos h]
  refine ⟨by decide, by decide, by decide, by decide, fun hm => ?_⟩
  simp [fetchContentPerformance_axiosErrorMessage, jsOptStringOr, hm]

/-- Witness for C7: a concrete aborted upload. -/
theorem timeout_error_message_distinct_witness :
    strStartsWith
        (uploadContentPerformanceCSV_errorMessage
          ⟨some "ECONNABORTED", "timeout of 60000ms exceeded", none, none⟩)
        "Upload timeout:" = true
    ∧ strStartsWith
        (uploadContentPerformanceCSV_errorMessage
          ⟨some "ECONNABORTED", "timeout of 60000ms exceeded", none, none⟩)
        "Failed to upload" = false :=
  ⟨(timeout_error_message_distinct ⟨some "ECONNABORTED", "timeout of 60000ms exceeded",
      none, none⟩ rfl).1,
   (timeout_error_message_distinct ⟨some "ECONNABORTED", "timeout of 60000ms exceeded",
      none, none⟩ rfl).2.1⟩

/-- C10: both fetch functions return the data array exactly when the envelope
reports `success` and carries non-null `data`; in every other case (including
`success = true` with null data) they throw. -/
theorem fetch_unwrap_ok_iff (r : ApiResponse (List ContentPerformanceKPI))
    (r' : ApiResponse (List GroupPerformanceKPI)) :
    (∀ d, fetchContentPerformance_unwrap r = Except.ok d
      ↔ r.success = true ∧ r.data = some d)
    ∧ ((∃ m, fetchContentPerformance_unwrap r = Except.error m)
      ↔ (r.success = false ∨ r.data = none))
    ∧ (∀ d, fetchGroupPerformance_unwrap r' = Except.ok d
      ↔ r'.success = true ∧ r'.data = some d)
    ∧ ((∃ m, fetchGroupPerformance_unwrap r' = Except.error m)
      ↔ (r'.success = false ∨ r'.data = none)) := by
  obtain ⟨s, sc, msg, data⟩ := r
  obtain ⟨s', sc', msg', data'⟩ := r'
  cases s <;> cases s' <;> cases data <;> cases data' <;>
    simp [fetchContentPerformance_unwrap, fetchGroupPerformance_unwrap]

/-- Witness for C10: a successful envelope unwraps to its data; a
`success = true` envelope with null data errors. -/
theorem fetch_unwrap_ok_iff_witness :
    fetchContentPerformance_unwrap ⟨true, 200, "", some []⟩ = Except.ok []
    ∧ (∃ m, fetchContentPerformance_unwrap ⟨true, 200, "", none⟩ = Except.error m) :=
  ⟨((fetch_unwrap_ok_iff ⟨true, 200, "", some []⟩ ⟨true, 200, "", none⟩).1 []).mpr
      ⟨rfl, rfl⟩,
   (fetch_unwrap_ok_iff ⟨true, 200, "", none⟩ ⟨true, 200, "", none⟩).2.1.mpr
      (Or.inr rfl)⟩

/-- C1 (code bug): the multipart payload built by either upload function for a
concrete `.csv` file contains only the `file` field — no `mode` field is ever
appended, even though the card passes `{ mode: uploadMode }` to the upload
function (see `handleFileSelect`'s `callUpload` effect carrying the mode). -/
theorem upload_payload_lacks_mode_field :
    (uploadContentPerformanceCSV_formData ⟨"data.csv", 1000⟩).map Prod.fst = ["file"]
    ∧ ¬ ("mode" ∈ (uploadContentPerformanceCSV_formData ⟨"data.csv", 1000⟩).map Prod.fst)
    ∧ (uploadPlayerHistoryCSV_formData ⟨"data.csv", 1000⟩).map Prod.fst = ["file"]
    ∧ ¬ ("mode" ∈ (uploadPlayerHistoryCSV_formData ⟨"data.csv", 1000⟩).map Prod.fst) := by
  refine ⟨rfl, ?_, rfl, ?_⟩ <;> decide

/-- C9 (code bug): the card's success path reads `databaseRecords` and
`lastUpdatedAt` from the upload result, but the `CsvUploadResponse` interface
the upload functions are declared to return carries neither field. -/
theorem csvUploadResponse_missing_consumed_fields :
    "databaseRecords" ∈ handleFileSelect_resultReads
    ∧ "lastUpdatedAt" ∈ handleFileSelect_resultReads
    ∧ ¬ ("databaseRecords" ∈ csvUploadResponse_declaredFields)
    ∧ ¬ ("lastUpdatedAt" ∈ csvUploadResponse_declaredFields) := by
  refine ⟨?_, ?_, ?_, ?_⟩ <;> decide

/-- C5: a selected file whose name does not end in `.csv` is rejected before
any network call: the handler records the failed "Invalid file type" result
and performs nothing else — in particular the upload function is never
invoked. -/
theorem invalid_extension_rejected_before_upload (type : UploadType) (file : FileDesc)
    (mode : UploadMode) (outcome : Except String CardUploadResult)
    (h : strEndsWith file.name ".csv" = false) :
    handleFileSelect type (some file) mode outcome
      = [Effect.setResult false "Invalid file type" (some "Please select a CSV file.")]
    ∧ ∀ n m, Effect.callUpload n m ∉ handleFileSelect type (some file) mode outcome := by
  constructor
  · simp [handleFileSelect, h]
  · intro n m
    simp [handleFileSelect, h]

/-- Witness for C5 at the file `data.txt`. -/
theorem invalid_extension_rejected_before_upload_witness :
    strEndsWith "data.txt" ".csv" = false
    ∧ (handleFileSelect UploadType.contentPerformance (some ⟨"data.txt", 100⟩)
          UploadMode.replace (Except.error "never reached")
        = [Effect.setResult false "Invalid file type" (some "Please select a CSV file.")]
      ∧ ∀ n m, Effect.callUpload n m ∉
          handleFileSelect UploadType.contentPerformance (some ⟨"data.txt", 100⟩)
            UploadMode.replace (Except.error "never reached")) :=
  ⟨rfl, invalid_extension_rejected_before_upload UploadType.contentPerformance
    ⟨"data.txt", 100⟩ UploadMode.replace (Except.error "never reached") rfl⟩

/-- C6: an upload that completes successfully (any mode) invalidates the
`performance` and `group-performance` cache keys exactly once each, plus the
card's `dataset-status` key, while a failed upload performs no invalidation at
all; the freshness window those invalidations bypass is the queries'
30-second `staleTime`. -/
theorem upload_success_invalidates_once (type : UploadType) (file : FileDesc)
    (mode : UploadMode) (result : CardUploadResult) (msg : String)
    (h : strEndsWith file.name ".csv" = true) :
    (handleFileSelect type (some file) mode (Except.ok result)).count
        (Effect.invalidate ["performance"]) = 1
    ∧ (handleFileSelect type (some file) mode (Except.ok result)).count
        (Effect.invalidate ["group-performance"]) = 1
    ∧ (handleFileSelect type (some file) mode (Except.ok result)).count
        (Effect.invalidate ["dataset-status", type.dataset]) = 1
    ∧ (∀ key, Effect.invalidate key ∉ handleFileSelect type (some file) mode (Except.error msg))
    ∧ usePerformanceData_staleTime = 30000
    ∧ useGroupPerformanceData_staleTime = 30000
    ∧ datasetStatus_staleTime = 30000 := by
  have hne : ¬ (strEndsWith file.name ".csv" = false) := by simp [h]
  refine ⟨?_, ?_, ?_, fun key => ?_, rfl, rfl, rfl⟩ <;>
    simp [handleFileSelect, hne, List.count_cons, UploadType.dataset]

/-- Witness for C6 at the file `a.csv`. -/
theorem upload_success_invalidates_once_witness :
    strEndsWith "a.csv" ".csv" = true
    ∧ (handleFileSelect UploadType.contentPerformance (some ⟨"a.csv", 5⟩) UploadMode.replace
        (Except.ok ⟨3, 3, none, 3, none⟩)).count (Effect.invalidate ["performance"]) = 1 :=
  ⟨rfl, (upload_success_invalidates_once UploadType.contentPerformance ⟨"a.csv", 5⟩
    UploadMode.replace ⟨3, 3, none, 3, none⟩ "unused" rfl).1⟩

/-- C4: the summary statistics compute total impressions as the sum of
`total_impressions`; for a non-empty collection the average attention and
entrance rates are the arithmetic means of the respective rates scaled by 100;
for the empty collection the unguarded division by the record count yields
NaN. -/
theorem dashboardStats_totals_and_averages (data : List AdPerformanceData) :
    (DashboardStats_stats data).totalImpressions
      = (data.map fun x => x.total_impressions).sum
    ∧ (data ≠ [] →
        (DashboardStats_stats data).avgAttention
          = JsNum.num ((data.map fun x => x.attention_rate).sum / (data.length : ℚ) * 100)
        ∧ (DashboardStats_stats data).avgEntrance
          = JsNum.num ((data.map fun x => x.entrance_rate).sum / (data.length : ℚ) * 100))
    ∧ (data = [] →
        (DashboardStats_stats data).avgAttention = JsNum.nan
        ∧ (DashboardStats_stats data).avgEntrance = JsNum.nan) := by
  refine ⟨?_, fun hne => ⟨?_, ?_⟩, fun he => ?_⟩
  · simp [DashboardStats_stats, foldl_add_eq_sum]
  · have hlen : data.length ≠ 0 := by simpa [List.length_eq_zero] using hne
    simp [DashboardStats_stats, foldl_add_eq_sum, jsDivByCount, hlen, jsMul100]
  · have hlen : data.length ≠ 0 := by simpa [List.length_eq_zero] using hne
    simp [DashboardStats_stats, foldl_add_eq_sum, jsDivByCount, hlen, jsMul100]
  · subst he
    simp [DashboardStats_stats, jsDivByCount, jsMul100]

/-- Witness for C4: records with rates 0.5 and 0.3 average to 40.0 percent,
impressions 10 and 25 total 35, and the empty collection averages to NaN. -/
theorem dashboardStats_totals_and_averages_witness :
    (DashboardStats_stats
        [⟨"c1", "t1", "g1", 10, 1/2, 1/2, Grade.S⟩,
         ⟨"c2", "t2", "g1", 25, 3/10, 1/4, Grade.D⟩]).totalImpressions = 35
    ∧ (DashboardStats_stats
        [⟨"c1", "t1", "g1", 10, 1/2, 1/2, Grade.S⟩,
         ⟨"c2", "t2", "g1", 25, 3/10, 1/4, Grade.D⟩]).avgAttention = JsNum.num 40
    ∧ (DashboardStats_stats []).avgAttention = JsNum.nan := by
  have h := dashboardStats_totals_and_averages
    [⟨"c1", "t1", "g1", 10, 1/2, 1/2, Grade.S⟩,
     ⟨"c2", "t2", "g1", 25, 3/10, 1/4, Grade.D⟩]
  have h0 := dashboardStats_totals_and_averages ([] : List AdPerformanceData)
  refine ⟨?_, ?_, (h0.2.2 rfl).1⟩
  · rw [h.1]
    norm_num
  · rw [(h.2.1 (by simp)).1]
    norm_num

theorem sortedDataRel_grade_desc (a b : AdPerformanceData) :
    sortedDataRel SortKey.performance_grade SortDirection.desc a b
      ↔ gradeOrder b.performance_grade ≤ gradeOrder a.performance_grade := by
  unfold sortedDataRel jsComparator fieldLt
  split_ifs <;> simp_all <;> omega

/-- C3: sorting the leaderboard by `performance_grade` compares records via
the rank mapping S=5, A=4, B=3, C=2, D=1; with the descending direction no
grade-D record ever precedes a grade-S record in the output; and applying the
sort twice with the same key and direction equals applying it once. -/
theorem leaderboard_grade_sort (dir : SortDirection) (data : List AdPerformanceData) :
    (gradeOrder Grade.S = 5 ∧ gradeOrder Grade.A = 4 ∧ gradeOrder Grade.B = 3
      ∧ gradeOrder Grade.C = 2 ∧ gradeOrder Grade.D = 1)
    ∧ (∀ a b, sortedDataRel SortKey.performance_grade SortDirection.desc a b
        ↔ gradeOrder b.performance_grade ≤ gradeOrder a.performance_grade)
    ∧ (sortedData SortKey.performance_grade SortDirection.desc data).Pairwise
        (fun a b => ¬ (a.performance_grade = Grade.D ∧ b.performance_grade = Grade.S))
    ∧ sortedData SortKey.performance_grade dir
        (sortedData SortKey.performance_grade dir data)
      = sortedData SortKey.performance_grade dir data := by
  refine ⟨⟨rfl, rfl, rfl, rfl, rfl⟩, sortedDataRel_grade_desc, ?_, ?_⟩
  · unfold sortedData
    have hs := List.sorted_insertionSort
      (sortedDataRel SortKey.performance_grade SortDirection.desc) data
    refine List.Pairwise.imp ?_ hs
    intro a b hr hc
    rw [sortedDataRel_grade_desc, hc.1, hc.2] at hr
    simp [gradeOrder] at hr
  · unfold sortedData
    cases dir
    · exact (List.sorted_insertionSort _ data).insertionSort_eq
    · exact (List.sorted_insertionSort _ data).insertionSort_eq

/-- Witness for C3 at a concrete two-record list. -/
theorem leaderboard_grade_sort_witness :
    (sortedData SortKey.performance_grade SortDirection.desc
        [⟨"c2", "t2", "g1", 25, 3/10, 1/4, Grade.D⟩,
         ⟨"c1", "t1", "g1", 10, 1/2, 1/2, Grade.S⟩]).Pairwise
      (fun a b => ¬ (a.performance_grade = Grade.D ∧ b.performance_grade = Grade.S))
    ∧ sortedData SortKey.performance_grade SortDirection.desc
        (sortedData SortKey.performance_grade SortDirection.desc
          [⟨"c2", "t2", "g1", 25, 3/10, 1/4, Grade.D⟩,
           ⟨"c1", "t1", "g1", 10, 1/2, 1/2, Grade.S⟩])
      = sortedData SortKey.performance_grade SortDirection.desc
          [⟨"c2", "t2", "g1", 25, 3/10, 1/4, Grade.D⟩,
           ⟨"c1", "t1", "g1", 10, 1/2, 1/2, Grade.S⟩] :=
  ⟨(leaderboard_grade_sort SortDirection.desc
      [⟨"c2", "t2", "g1", 25, 3/10, 1/4, Grade.D⟩,
       ⟨"c1", "t1", "g1", 10, 1/2, 1/2, Grade.S⟩]).2.2.1,
   (leaderboard_grade_sort SortDirection.desc
      [⟨"c2", "t2", "g1", 25, 3/10, 1/4, Grade.D⟩,
       ⟨"c1", "t1", "g1", 10, 1/2, 1/2, Grade.S⟩]).2.2.2⟩

/-! ### The `groupMap` fold: key and lookup lemmas -/

theorem updateGroupEntry_keys (l : List (String × ℚ × ℕ)) (g : String) (r : ℚ) :
    (updateGroupEntry l g r).map Prod.fst
      = if g ∈ l.map Prod.fst then l.map Prod.fst else l.map Prod.fst ++ [g] := by
  induction l with
  | nil => simp [updateGroupEntry]
  | cons e t ih =>
    obtain ⟨g', s, c⟩ := e
    by_cases hg : g' = g
    · subst hg
      simp [updateGroupEntry]
    · simp only [updateGroupEntry, if_neg hg, List.map_cons, ih]
      by_cases hm : g ∈ t.map Prod.fst
      · simp [hm, List.mem_cons, Ne.symm hg]
      · simp [hm, List.mem_cons, Ne.symm hg]

theorem lookupEntry_update_same (l : List (String × ℚ × ℕ)) (g : String) (r : ℚ) :
    lookupEntry (updateGroupEntry l g r) g
      = some (match lookupEntry l g with
              | none => (r, 1)
              | some (s, c) => (s + r, c + 1)) := by
  induction l with
  | nil => simp [updateGroupEntry, lookupEntry]
  | cons e t ih =>
    obtain ⟨g', s, c⟩ := e
    by_cases hg : g' = g
    · subst hg
      simp [updateGroupEntry, lookupEntry]
    · simp [updateGroupEntry, lookupEntry, hg, ih]

theorem lookupEntry_update_other (l : List (String × ℚ × ℕ)) (g : String) (r : ℚ)
    (g' : String) (h : g' ≠ g) :
    lookupEntry (updateGroupEntry l g r) g' = lookupEntry l g' := by
  induction l with
  | nil => simp [updateGroupEntry, lookupEntry, Ne.symm h]
  | cons e t ih =>
    obtain ⟨g0, s, c⟩ := e
    by_cases hg : g0 = g
    · subst hg
      simp [updateGroupEntry, lookupEntry, Ne.symm h]
    · simp [updateGroupEntry, lookupEntry, hg, ih]

theorem lookupEntry_eq_none_iff (l : List (String × ℚ × ℕ)) (g : String) :
    lookupEntry l g = none ↔ g ∉ l.map Prod.fst := by
  induction l with
  | nil => simp [lookupEntry]
  | cons e t ih =>
    obtain ⟨g0, v⟩ := e
    by_cases hg : g0 = g
    · subst hg
      simp [lookupEntry]
    · simp [lookupEntry, hg, ih, Ne.symm hg]

theorem lookupEntry_of_mem (l : List (String × ℚ × ℕ))
    (hn : (l.map Prod.fst).Nodup) {e : String × ℚ × ℕ} (he : e ∈ l) :
    lookupEntry l e.1 = some e.2 := by
  induction l with
  | nil => cases he
  | cons x t ih =>
    obtain ⟨g0, v⟩ := x
    obtain ⟨hnot, hn'⟩ := List.nodup_cons.mp hn
    rcases List.mem_cons.mp he with rfl | ht
    · simp [lookupEntry]
    · have hne : g0 ≠ e.1 := by
        intro hh
        apply hnot
        rw [hh]
        exact List.mem_map.mpr ⟨e, ht, rfl⟩
      simp [lookupEntry, hne, ih hn' ht]

/-! ### The fold computes per-group sums and counts -/

theorem groupFold_concat (data : List AdPerformanceData) (x : AdPerformanceData) :
    groupFold (data ++ [x])
      = updateGroupEntry (groupFold data) x.content_group x.entrance_rate := by
  simp [groupFold, List.foldl_append]

theorem groupCount_concat (data : List AdPerformanceData) (x : AdPerformanceData)
    (g : String) :
    groupCount (data ++ [x]) g
      = groupCount data g + (if x.content_group = g then 1 else 0) := by
  simp only [groupCount, List.filter_append]
  split_ifs with h <;> simp [h]

theorem groupRateSum_concat (data : List AdPerformanceData) (x : AdPerformanceData)
    (g : String) :
    groupRateSum (data ++ [x]) g
      = groupRateSum data g + (if x.content_group = g then x.entrance_rate else 0) := by
  simp only [groupRateSum, List.filter_append]
  split_ifs with h <;> simp [h]

theorem groupRateSum_of_count_zero (data : List AdPerformanceData) (g : String)
    (h : groupCount data g = 0) : groupRateSum data g = 0 := by
  have hf : (data.filter fun x => x.content_group = g) = [] :=
    List.length_eq_zero.mp h
  simp [groupRateSum, hf]

theorem groupFold_lookup (data : List AdPerformanceData) (g : String) :
    lookupEntry (groupFold data) g
      = if groupCount data g = 0 then none
        else some (groupRateSum data g, groupCount data g) := by
  induction data using List.reverseRecOn with
  | nil => simp [groupFold, lookupEntry, groupCount, groupRateSum]
  | append_singleton t x ih =>
    rw [groupFold_concat]
    by_cases hg : x.content_group = g
    · rw [hg, lookupEntry_update_same, ih]
      by_cases h0 : groupCount t g = 0
      · simp [h0, groupCount_concat, groupRateSum_concat, hg,
          groupRateSum_of_count_zero t g h0]
      · simp [h0, groupCount_concat, groupRateSum_concat, hg, add_comm]
    · rw [lookupEntry_update_other _ _ _ _ (fun hh => hg hh.symm), ih]
      simp [groupCount_concat, groupRateSum_concat, hg]

theorem groupFold_keys_nodup (data : List AdPerformanceData) :
    ((groupFold data).map Prod.fst).Nodup := by
  induction data using List.reverseRecOn with
  | nil => simp [groupFold]
  | append_singleton t x ih =>
    rw [groupFold_concat, updateGroupEntry_keys]
    split_ifs with h
    · exact ih
    · simp [List.nodup_append, ih, h]

theorem groupCount_ne_zero_iff (data : List AdPerformanceData) (g : String) :
    groupCount data g ≠ 0 ↔ g ∈ data.map fun x => x.content_group := by
  rw [groupCount, Ne, List.length_eq_zero, List.filter_eq_nil_iff]
  push_neg
  simp [List.mem_map]

theorem mem_groupFold_keys (data : List AdPerformanceData) (g : String) :
    g ∈ (groupFold data).map Prod.fst ↔ groupCount data g ≠ 0 := by
  rw [← not_iff_not, ← lookupEntry_eq_none_iff, groupFold_lookup]
  split_ifs with h <;> simp [h]

theorem groupFold_length (data : List AdPerformanceData) :
    (groupFold data).length = (data.map fun x => x.content_group).toFinset.card := by
  have h1 : (groupFold data).length = ((groupFold data).map Prod.fst).length := by simp
  rw [h1, ← List.toFinset_card_of_nodup (groupFold_keys_nodup data)]
  congr 1
  ext g
  simp only [List.mem_toFinset]
  rw [mem_groupFold_keys, groupCount_ne_zero_iff]

theorem groupFold_mem_spec (data : List AdPerformanceData) {e : String × ℚ × ℕ}
    (he : e ∈ groupFold data) :
    e.2.1 = groupRateSum data e.1 ∧ e.2.2 = groupCount data e.1
      ∧ groupCount data e.1 ≠ 0 := by
  have hl := lookupEntry_of_mem (groupFold data) (groupFold_keys_nodup data) he
  rw [groupFold_lookup] at hl
  by_cases h0 : groupCount data e.1 = 0
  · simp [h0] at hl
  · rw [if_neg h0] at hl
    obtain ⟨h1, h2⟩ := Prod.mk.injEq .. ▸ Option.some.injEq .. ▸ hl
    exact ⟨h1.symm ▸ rfl, by simp [← h2], h0⟩

/-- Per-entry specification of `chartData`: every chart entry's average is its
group's rate sum over its (non-zero) record count, scaled by 100. -/
theorem chartData_entry_spec (data : List AdPerformanceData) {e : GroupAggregate}
    (he : e ∈ chartData data) :
    groupCount data e.content_group ≠ 0
    ∧ e.average_entrance_rate
        = groupRateSum data e.content_group / (groupCount data e.content_group : ℚ) * 100 := by
  unfold chartData at he
  rw [List.mem_insertionSort] at he
  obtain ⟨p, hp, rfl⟩ := List.mem_map.mp he
  obtain ⟨hs, hc, h0⟩ := groupFold_mem_spec data hp
  exact ⟨h0, by simp [hs, hc]⟩

/-- C2: for every non-empty record collection, the chart transform produces
exactly one entry per distinct `content_group` (so its length is bounded by
the number of distinct groups), the output is sorted non-increasing by
`average_entrance_rate`, each entry's average is the arithmetic mean of its
group's `entrance_rate` values scaled by 100, and a singleton group's average
is exactly that record's `entrance_rate * 100`. -/
theorem chartData_grouping (data : List AdPerformanceData) (hne : data ≠ []) :
    (chartData data).length = (data.map fun x => x.content_group).toFinset.card
    ∧ (chartData data).Pairwise
        (fun a b => b.average_entrance_rate ≤ a.average_entrance_rate)
    ∧ (∀ e ∈ chartData data,
        groupCount data e.content_group ≠ 0
        ∧ e.average_entrance_rate
            = groupRateSum data e.content_group / (groupCount data e.content_group : ℚ) * 100)
    ∧ (∀ e ∈ chartData data, ∀ rec,
        data.filter (fun x => x.content_group = e.content_group) = [rec]
        → e.average_entrance_rate = rec.entrance_rate * 100) := by
  refine ⟨?_, ?_, fun e he => chartData_entry_spec data he, fun e he rec hrec => ?_⟩
  · unfold chartData
    simp [groupFold_length]
  · unfold chartData
    exact List.Pairwise.imp (fun h => h) (List.sorted_insertionSort chartDataRel _)
  · obtain ⟨h0, havg⟩ := chartData_entry_spec data he
    have hcount : groupCount data e.content_group = 1 := by
      simp [groupCount, hrec]
    have hsum : groupRateSum data e.content_group = rec.entrance_rate := by
      simp [groupRateSum, hrec]
    rw [havg, hcount, hsum]
    norm_num

/-- Witness for C2 at a concrete three-record, two-group collection. -/
theorem chartData_grouping_witness :
    ([⟨"c1", "t1", "g1", 10, 1/2, 1/2, Grade.S⟩,
      ⟨"c2", "t2", "g1", 25, 3/10, 1/4, Grade.D⟩,
      ⟨"c3", "t3", "g2", 7, 1/5, 9/10, Grade.A⟩] : List AdPerformanceData) ≠ []
    ∧ ((chartData
          [⟨"c1", "t1", "g1", 10, 1/2, 1/2, Grade.S⟩,
           ⟨"c2", "t2", "g1", 25, 3/10, 1/4, Grade.D⟩,
           ⟨"c3", "t3", "g2", 7, 1/5, 9/10, Grade.A⟩]).length
        = (([⟨"c1", "t1", "g1", 10, 1/2, 1/2, Grade.S⟩,
             ⟨"c2", "t2", "g1", 25, 3/10, 1/4, Grade.D⟩,
             ⟨"c3", "t3", "g2", 7, 1/5, 9/10, Grade.A⟩] : List AdPerformanceData).map
            fun x => x.content_group).toFinset.card
      ∧ (chartData
          [⟨"c1", "t1", "g1", 10, 1/2, 1/2, Grade.S⟩,
           ⟨"c2", "t2", "g1", 25, 3/10, 1/4, Grade.D⟩,
           ⟨"c3", "t3", "g2", 7, 1/5, 9/10, Grade.A⟩]).Pairwise
          (fun a b => b.average_entrance_rate ≤ a.average_entrance_rate)) :=
  ⟨by simp,
   (chartData_grouping
      [⟨"c1", "t1", "g1", 10, 1/2, 1/2, Grade.S⟩,
       ⟨"c2", "t2", "g1", 25, 3/10, 1/4, Grade.D⟩,
       ⟨"c3", "t3", "g2", 7, 1/5, 9/10, Grade.A⟩] (by simp)).1,
   (chartData_grouping
      [⟨"c1", "t1", "g1", 10, 1/2, 1/2, Grade.S⟩,
       ⟨"c2", "t2", "g1", 25, 3/10, 1/4, Grade.D⟩,
       ⟨"c3", "t3", "g2", 7, 1/5, 9/10, Grade.A⟩] (by simp)).2.1⟩

end SupervisionFrontend
